import Mathlib

/-!
Verification of the APort policy-pack evaluators.

The repository ships three executable policy evaluators (JavaScript),
one per policy pack:

  * evaluateFinanceTransactionExecuteV1
    (finance.transaction.execute.v1/tests/transactions-policy.test.js)
  * evaluateGovernanceDataAccessV1
    (governance.data.access.v1/tests/data-access-policy.test.js)
  * evaluateLegalContractReviewV1
    (legal.contract.review.v1 test suite)

Each takes an agent passport and a request context and returns a decision
object with an allow flag and a list of reason records.  The development
below is a shallow embedding of these three functions, keeping the exact
field names, rule order, reason codes, messages and severities of the
source.  Context field values are modelled by a JavaScript-like value type
so that JavaScript truthiness (used pervasively by the source, e.g.
requiredFields.filter with a bang, and guards of the form
value-and-limit-and-comparison) is represented faithfully.  Numeric
context fields hold integers, matching every fixture in the repository;
JavaScript string-to-number coercions inside comparisons are not modelled
because no fixture and no rule guard can reach them with a non-numeric
truthy value of numeric meaning.  Optional chaining through
limits.finance.transaction and its analogues is collapsed into a single
Option, which is semantically identical because undefined at any level of
the chain yields undefined for the whole chain.
-/

/-- A JavaScript value as it appears in a policy context or passport:
absent (undefined), null, a boolean, an integer, or a string. -/
inductive JsVal where
  | absent
  | vnull
  | vbool (b : Bool)
  | vnum (n : Int)
  | vstr (s : String)
deriving DecidableEq, Repr

/-- JavaScript truthiness: undefined, null, false, 0 and the empty string
are falsy; everything else is truthy. -/
def JsVal.truthy : JsVal → Bool
  | .absent => false
  | .vnull => false
  | .vbool b => b
  | .vnum n => n != 0
  | .vstr s => s != ""

/-- Truthiness of a numeric value is its being nonzero. -/
theorem JsVal.truthy_vnum (n : Int) : (JsVal.vnum n).truthy = (n != 0) :=
  rfl

/-- Rendering of a JavaScript value inside a template string. -/
def JsVal.toStr : JsVal → String
  | .absent => "undefined"
  | .vnull => "null"
  | .vbool b => if b then "true" else "false"
  | .vnum n => toString n
  | .vstr s => s

/-- Membership of a context value in an array of strings, as tested by
Array.prototype.includes with strict equality. -/
def jsIncludes (l : List String) (v : JsVal) : Bool :=
  match v with
  | .vstr s => l.contains s
  | _ => false

/-- Strict equality of a context value with a string literal. -/
def jsEqStr (v : JsVal) (s : String) : Bool :=
  v == JsVal.vstr s

/-- Comparison value-greater-than-limit on a numeric context value. -/
def jsGt (v : JsVal) (m : Int) : Bool :=
  match v with
  | .vnum n => n > m
  | _ => false

/-- Comparison value-at-least-limit on a numeric context value. -/
def jsGe (v : JsVal) (m : Int) : Bool :=
  match v with
  | .vnum n => n ≥ m
  | _ => false

/-- Resolution of an optional string limit with a default, as done by the
JavaScript or-operator: undefined and the empty string give the default. -/
def strOr (o : Option String) (d : String) : String :=
  match o with
  | some s => if s == "" then d else s
  | none => d

/-- Resolution of an optional array limit, as done by or-empty-array. -/
def listOr (o : Option (List String)) : List String :=
  o.getD []

/-- Truthiness of an optional numeric limit: absent and zero are falsy. -/
def numOptTruthy (o : Option Int) : Bool :=
  match o with
  | some m => m != 0
  | none => false

/-- Numeric comparison value-greater-than-optional-limit, guarded by the
truthiness of the limit exactly as the source writes limit-and-compare. -/
def jsGtOpt (v : JsVal) (o : Option Int) : Bool :=
  match o with
  | some m => (m != 0) && jsGt v m
  | none => false

/-- Numeric comparison value-at-least-optional-limit, guarded by the
truthiness of the limit. -/
def jsGeOpt (v : JsVal) (o : Option Int) : Bool :=
  match o with
  | some m => (m != 0) && jsGe v m
  | none => false

/-- Rendering of an optional numeric limit inside a template string. -/
def numOptStr (o : Option Int) : String :=
  match o with
  | some m => toString m
  | none => "undefined"

/-- One reason record of a decision: code, message and severity. -/
structure Reason where
  code : String
  message : String
  severity : String
deriving DecidableEq, Repr

/-- The decision object returned by every evaluator. -/
structure Decision where
  allow : Bool
  reasons : List Reason
deriving DecidableEq, Repr

/-- One capability entry of a passport. -/
structure Capability where
  id : String
deriving DecidableEq, Repr

/-- Presence of a capability id in the passport, as computed by
capabilities-optional-chain-some: an absent capabilities array yields
undefined, hence no capability. -/
def hasCapability (caps : Option (List Capability)) (cid : String) : Bool :=
  match caps with
  | some l => l.any fun cap => cap.id == cid
  | none => false

/-- One evaluation rule of a policy: its deny code, its firing predicate
over passport and context, and its message builder. -/
structure PolicyRule (P C : Type) where
  code : String
  fires : P → C → Bool
  msg : P → C → String
deriving Inhabited

/-- The deny decision produced when a rule fires: a single reason carrying
the rule code, its message and error severity. -/
def ruleDeny {P C : Type} (r : PolicyRule P C) (p : P) (c : C) : Decision :=
  ⟨false, [⟨r.code, r.msg p c, "error"⟩]⟩

/-! ## finance.transaction.execute.v1 -/

/-- The limits object resolved from limits.finance.transaction of a
passport for the finance transaction policy. -/
structure FinanceTxLimits where
  require_assurance_at_least : Option String := none
  allowed_transaction_types : Option (List String) := none
  allowed_asset_classes : Option (List String) := none
  max_exposure_per_tx_usd : Option Int := none
  restricted_source_account_types : Option (List String) := none
  allowed_source_account_types : Option (List String) := none
  max_exposure_per_counterparty_usd : Option Int := none
deriving DecidableEq, Repr

/-- A passport as read by the finance transaction evaluator. -/
structure FinancePassport where
  status : String
  assurance_level : String
  capabilities : Option (List Capability) := none
  limits : Option FinanceTxLimits := none
deriving DecidableEq, Repr

/-- A request context as read by the finance transaction evaluator. -/
structure FinanceContext where
  transaction_type : JsVal := .absent
  amount : JsVal := .absent
  currency : JsVal := .absent
  asset_class : JsVal := .absent
  source_account_id : JsVal := .absent
  destination_account_id : JsVal := .absent
  source_account_type : JsVal := .absent
  destination_account_type : JsVal := .absent
  counterparty_id : JsVal := .absent
deriving DecidableEq, Repr

/-- String-keyed field access on a finance context, mirroring the
JavaScript object indexing used by the required-fields filter. -/
def FinanceContext.get (c : FinanceContext) (f : String) : JsVal :=
  if f == "transaction_type" then c.transaction_type
  else if f == "amount" then c.amount
  else if f == "currency" then c.currency
  else if f == "asset_class" then c.asset_class
  else if f == "source_account_id" then c.source_account_id
  else if f == "destination_account_id" then c.destination_account_id
  else if f == "source_account_type" then c.source_account_type
  else if f == "destination_account_type" then c.destination_account_type
  else if f == "counterparty_id" then c.counterparty_id
  else .absent

/-- The required context fields of the finance transaction policy. -/
def financeRequiredFields : List String :=
  ["transaction_type", "amount", "currency", "asset_class",
   "source_account_id", "destination_account_id"]

/-- The required fields missing from a finance context, collected by
filtering the required list with JavaScript falsiness. -/
def financeMissingFields (c : FinanceContext) : List String :=
  financeRequiredFields.filter fun f => !(c.get f).truthy

/-- The required assurance of the finance transaction policy, defaulting
to L3 when the limit is absent. -/
def financeRequiredAssurance (p : FinancePassport) : String :=
  strOr (p.limits.bind fun l => l.require_assurance_at_least) ("L3")

/-- The resolved allowed transaction types limit. -/
def financeAllowedTxTypes (p : FinancePassport) : List String :=
  listOr (p.limits.bind fun l => l.allowed_transaction_types)

/-- The resolved allowed asset classes limit. -/
def financeAllowedAssetClasses (p : FinancePassport) : List String :=
  listOr (p.limits.bind fun l => l.allowed_asset_classes)

/-- The resolved per-transaction exposure limit. -/
def financeMaxExposure (p : FinancePassport) : Option Int :=
  p.limits.bind fun l => l.max_exposure_per_tx_usd

/-- The resolved restricted source account types limit. -/
def financeRestrictedSrcTypes (p : FinancePassport) : List String :=
  listOr (p.limits.bind fun l => l.restricted_source_account_types)

/-- The resolved allowed source account types limit. -/
def financeAllowedSrcTypes (p : FinancePassport) : List String :=
  listOr (p.limits.bind fun l => l.allowed_source_account_types)

/-- The resolved per-counterparty exposure limit. -/
def financeMaxCounterparty (p : FinancePassport) : Option Int :=
  p.limits.bind fun l => l.max_exposure_per_counterparty_usd

/-- Agent status rule: deny when the passport is suspended or revoked. -/
def frStatus : PolicyRule FinancePassport FinanceContext :=
  ⟨"oap.passport_suspended",
   fun p _ => p.status == "suspended" || p.status == "revoked",
   fun p _ => "Agent is " ++ p.status ++ " and cannot perform operations"⟩

/-- Capability rule: deny when finance.transaction is not granted. -/
def frCap : PolicyRule FinancePassport FinanceContext :=
  ⟨"oap.unknown_capability",
   fun p _ => !(hasCapability p.capabilities ("finance.transaction")),
   fun _ _ => "Agent does not have finance.transaction capability"⟩

/-- Assurance rule of the finance evaluator: deny unless the assurance
level equals the required one or is L4KYC or L4FIN (a strict equality
test as written in the source, not an ordered comparison). -/
def frAssurance : PolicyRule FinancePassport FinanceContext :=
  ⟨"oap.assurance_insufficient",
   fun p _ => p.assurance_level != financeRequiredAssurance p &&
     p.assurance_level != "L4KYC" && p.assurance_level != "L4FIN",
   fun p _ => "Assurance level " ++ p.assurance_level ++
     " is insufficient, requires " ++ financeRequiredAssurance p⟩

/-- Transaction type allowlist rule. -/
def frTxType : PolicyRule FinancePassport FinanceContext :=
  ⟨"oap.action_forbidden",
   fun p c => !(financeAllowedTxTypes p).isEmpty &&
     !(jsIncludes (financeAllowedTxTypes p) c.transaction_type),
   fun _ c => "Transaction type " ++ c.transaction_type.toStr ++
     " is not allowed"⟩

/-- Asset class allowlist rule. -/
def frAssetClass : PolicyRule FinancePassport FinanceContext :=
  ⟨"oap.asset_class_forbidden",
   fun p c => !(financeAllowedAssetClasses p).isEmpty &&
     !(jsIncludes (financeAllowedAssetClasses p) c.asset_class),
   fun _ c => "Asset class " ++ c.asset_class.toStr ++ " is not allowed"⟩

/-- Per-transaction exposure limit rule. -/
def frExposure : PolicyRule FinancePassport FinanceContext :=
  ⟨"oap.limit_exceeded",
   fun p c => jsGtOpt c.amount (financeMaxExposure p),
   fun p c => "Amount " ++ c.amount.toStr ++
     " exceeds maximum exposure limit " ++ numOptStr (financeMaxExposure p)⟩

/-- Restricted source account types rule. -/
def frRestrictedSrc : PolicyRule FinancePassport FinanceContext :=
  ⟨"oap.account_type_restricted",
   fun p c => c.source_account_type.truthy &&
     jsIncludes (financeRestrictedSrcTypes p) c.source_account_type,
   fun _ c => "Source account type " ++ c.source_account_type.toStr ++
     " is restricted"⟩

/-- Allowed source account types rule. -/
def frAllowedSrc : PolicyRule FinancePassport FinanceContext :=
  ⟨"oap.account_type_restricted",
   fun p c => !(financeAllowedSrcTypes p).isEmpty &&
     c.source_account_type.truthy &&
     !(jsIncludes (financeAllowedSrcTypes p) c.source_account_type),
   fun _ c => "Source account type " ++ c.source_account_type.toStr ++
     " is not allowed"⟩

/-- Segregation of funds rule: deny transfers from client funds to
proprietary accounts. -/
def frCommingling : PolicyRule FinancePassport FinanceContext :=
  ⟨"oap.commingling_of_funds_forbidden",
   fun _ c => jsEqStr c.source_account_type ("client_funds") &&
     jsEqStr c.destination_account_type ("proprietary"),
   fun _ _ => "Cannot transfer from client funds to proprietary accounts"⟩

/-- Counterparty exposure limit rule, guarded by a truthy counterparty
id in the context. -/
def frCounterparty : PolicyRule FinancePassport FinanceContext :=
  ⟨"oap.counterparty_limit_exceeded",
   fun p c => numOptTruthy (financeMaxCounterparty p) &&
     c.counterparty_id.truthy &&
     jsGt c.amount ((financeMaxCounterparty p).getD 0),
   fun p c => "Amount " ++ c.amount.toStr ++
     " exceeds counterparty exposure limit " ++
     numOptStr (financeMaxCounterparty p)⟩

/-- The rules of the finance transaction evaluator in declared order. -/
def financeRules : List (PolicyRule FinancePassport FinanceContext) :=
  [frStatus, frCap, frAssurance, frTxType, frAssetClass, frExposure,
   frRestrictedSrc, frAllowedSrc, frCommingling, frCounterparty]

/-- The allow decision of the finance transaction evaluator. -/
def financeAllow : Decision :=
  ⟨true, [⟨"oap.allowed",
    "Transaction within limits and policy requirements", "info"⟩]⟩

/-- The deny decision for a finance context failing required-field
validation, carrying one invalid-context reason listing every missing
field. -/
def financeInvalidContext (c : FinanceContext) : Decision :=
  ⟨false, [⟨"oap.invalid_context",
    "Missing required fields: " ++
      String.intercalate (", ") (financeMissingFields c), "error"⟩]⟩

/-- The finance transaction evaluator: the exact chain of early-return
checks of evaluateFinanceTransactionExecuteV1, with required-field
validation placed between the assurance rule and the transaction type
rule as in the source. -/
def evaluateFinanceTransactionExecuteV1
    (p : FinancePassport) (c : FinanceContext) : Decision :=
  if frStatus.fires p c then ruleDeny frStatus p c
  else if frCap.fires p c then ruleDeny frCap p c
  else if frAssurance.fires p c then ruleDeny frAssurance p c
  else if (financeMissingFields c).length > 0 then financeInvalidContext c
  else if frTxType.fires p c then ruleDeny frTxType p c
  else if frAssetClass.fires p c then ruleDeny frAssetClass p c
  else if frExposure.fires p c then ruleDeny frExposure p c
  else if frRestrictedSrc.fires p c then ruleDeny frRestrictedSrc p c
  else if frAllowedSrc.fires p c then ruleDeny frAllowedSrc p c
  else if frCommingling.fires p c then ruleDeny frCommingling p c
  else if frCounterparty.fires p c then ruleDeny frCounterparty p c
  else financeAllow

/-! ## governance.data.access.v1 -/

/-- The per-classification permissions object of the data access limits. -/
structure GovPermissions where
  allowed_entity_types : Option (List String) := none
  allowed_actions : Option (List String) := none
deriving DecidableEq, Repr

/-- The limits object resolved from limits.data.access of a passport for
the data access policy. -/
structure GovLimits where
  require_assurance_at_least : Option String := none
  allowed_classifications : Option (List String) := none
  permissions : Option (List (String × GovPermissions)) := none
  allowed_jurisdictions : Option (List String) := none
  max_rows_per_export : Option Int := none
  allowed_destination_jurisdictions : Option (List String) := none
  balance_inquiry_cap_usd : Option Int := none
deriving DecidableEq, Repr

/-- A passport as read by the data access evaluator. -/
structure GovPassport where
  status : String
  assurance_level : String
  capabilities : Option (List Capability) := none
  limits : Option GovLimits := none
deriving DecidableEq, Repr

/-- The resource attributes object optionally carried by a data access
context. -/
structure GovResourceAttributes where
  account_balance_usd : JsVal := .absent
deriving DecidableEq, Repr

/-- A request context as read by the data access evaluator. -/
structure GovContext where
  data_classification : JsVal := .absent
  accessing_entity_id : JsVal := .absent
  accessing_entity_type : JsVal := .absent
  resource_id : JsVal := .absent
  jurisdiction : JsVal := .absent
  row_count : JsVal := .absent
  destination_jurisdiction : JsVal := .absent
  resource_attributes : Option GovResourceAttributes := none
  action_type : JsVal := .absent
deriving DecidableEq, Repr

/-- String-keyed field access on a data access context. -/
def GovContext.get (c : GovContext) (f : String) : JsVal :=
  if f == "data_classification" then c.data_classification
  else if f == "accessing_entity_id" then c.accessing_entity_id
  else if f == "accessing_entity_type" then c.accessing_entity_type
  else if f == "resource_id" then c.resource_id
  else if f == "jurisdiction" then c.jurisdiction
  else if f == "row_count" then c.row_count
  else if f == "destination_jurisdiction" then c.destination_jurisdiction
  else if f == "action_type" then c.action_type
  else .absent

/-- The required context fields of the data access policy. -/
def govRequiredFields : List String :=
  ["data_classification", "accessing_entity_id", "accessing_entity_type",
   "resource_id"]

/-- The required fields missing from a data access context. -/
def govMissingFields (c : GovContext) : List String :=
  govRequiredFields.filter fun f => !(c.get f).truthy

/-- The required assurance of the data access policy, defaulting to L3. -/
def govRequiredAssurance (p : GovPassport) : String :=
  strOr (p.limits.bind fun l => l.require_assurance_at_least) ("L3")

/-- The resolved allowed classifications limit. -/
def govAllowedClassifications (p : GovPassport) : List String :=
  listOr (p.limits.bind fun l => l.allowed_classifications)

/-- The permissions entry for the classification carried by the context,
looked up by string key as in the JavaScript object indexing. -/
def govPermsFor (p : GovPassport) (v : JsVal) : Option GovPermissions :=
  match p.limits.bind fun l => l.permissions with
  | some entries =>
    match v with
    | .vstr s => (entries.find? fun e => e.fst == s).map fun e => e.snd
    | _ => none
  | none => none

/-- The resolved allowed jurisdictions limit. -/
def govAllowedJurisdictions (p : GovPassport) : List String :=
  listOr (p.limits.bind fun l => l.allowed_jurisdictions)

/-- The resolved per-export row limit. -/
def govMaxRows (p : GovPassport) : Option Int :=
  p.limits.bind fun l => l.max_rows_per_export

/-- The resolved allowed destination jurisdictions limit. -/
def govAllowedDestJurisdictions (p : GovPassport) : List String :=
  listOr (p.limits.bind fun l => l.allowed_destination_jurisdictions)

/-- The resolved balance inquiry cap. -/
def govBalanceCap (p : GovPassport) : Option Int :=
  p.limits.bind fun l => l.balance_inquiry_cap_usd

/-- The account balance read through the optional resource attributes of
the context; an absent attributes object yields undefined. -/
def govBalance (c : GovContext) : JsVal :=
  match c.resource_attributes with
  | some a => a.account_balance_usd
  | none => .absent

/-- Agent status rule of the data access evaluator. -/
def grStatus : PolicyRule GovPassport GovContext :=
  ⟨"oap.passport_suspended",
   fun p _ => p.status == "suspended" || p.status == "revoked",
   fun p _ => "Agent is " ++ p.status ++ " and cannot perform operations"⟩

/-- Capability rule: deny when data.access is not granted. -/
def grCap : PolicyRule GovPassport GovContext :=
  ⟨"oap.unknown_capability",
   fun p _ => !(hasCapability p.capabilities ("data.access")),
   fun _ _ => "Agent does not have data.access capability"⟩

/-- Assurance rule of the data access evaluator: the same strict
equality test as the finance evaluator. -/
def grAssurance : PolicyRule GovPassport GovContext :=
  ⟨"oap.assurance_insufficient",
   fun p _ => p.assurance_level != govRequiredAssurance p &&
     p.assurance_level != "L4KYC" && p.assurance_level != "L4FIN",
   fun p _ => "Assurance level " ++ p.assurance_level ++
     " is insufficient, requires " ++ govRequiredAssurance p⟩

/-- Data classification allowlist rule. -/
def grClassification : PolicyRule GovPassport GovContext :=
  ⟨"oap.classification_forbidden",
   fun p c => !(govAllowedClassifications p).isEmpty &&
     !(jsIncludes (govAllowedClassifications p) c.data_classification),
   fun _ c => "Data classification " ++ c.data_classification.toStr ++
     " is not allowed"⟩

/-- Entity type rule: deny when the permissions entry for the contexts
classification lists entity types and the accessing entity type is not
among them; a present empty list is truthy in JavaScript and denies every
entity type. -/
def grEntityType : PolicyRule GovPassport GovContext :=
  ⟨"oap.entity_type_forbidden",
   fun p c =>
     match govPermsFor p c.data_classification with
     | some perms =>
       match perms.allowed_entity_types with
       | some l => !(jsIncludes l c.accessing_entity_type)
       | none => false
     | none => false,
   fun _ c => "Entity type " ++ c.accessing_entity_type.toStr ++
     " is not allowed for " ++ c.data_classification.toStr ++ " data"⟩

/-- Jurisdiction allowlist rule, guarded by a truthy jurisdiction. -/
def grJurisdiction : PolicyRule GovPassport GovContext :=
  ⟨"oap.jurisdiction_blocked",
   fun p c => c.jurisdiction.truthy &&
     !(govAllowedJurisdictions p).isEmpty &&
     !(jsIncludes (govAllowedJurisdictions p) c.jurisdiction),
   fun _ c => "Jurisdiction " ++ c.jurisdiction.toStr ++ " is not allowed"⟩

/-- Row limit rule, guarded by a truthy row count. -/
def grRowLimit : PolicyRule GovPassport GovContext :=
  ⟨"oap.row_limit_exceeded",
   fun p c => c.row_count.truthy && jsGtOpt c.row_count (govMaxRows p),
   fun p c => "Row count " ++ c.row_count.toStr ++
     " exceeds maximum allowed " ++ numOptStr (govMaxRows p)⟩

/-- Destination jurisdiction allowlist rule, guarded by a truthy
destination jurisdiction. -/
def grDestJurisdiction : PolicyRule GovPassport GovContext :=
  ⟨"oap.jurisdiction_blocked",
   fun p c => c.destination_jurisdiction.truthy &&
     !(govAllowedDestJurisdictions p).isEmpty &&
     !(jsIncludes (govAllowedDestJurisdictions p) c.destination_jurisdiction),
   fun _ c => "Destination jurisdiction " ++
     c.destination_jurisdiction.toStr ++ " is not allowed"⟩

/-- Balance inquiry cap rule, guarded by a truthy balance attribute; the
comparison is at-least, unlike the strict comparisons elsewhere. -/
def grBalance : PolicyRule GovPassport GovContext :=
  ⟨"oap.balance_inquiry_forbidden",
   fun p c => (govBalance c).truthy && jsGeOpt (govBalance c) (govBalanceCap p),
   fun p c => "Account balance " ++ (govBalance c).toStr ++
     " exceeds inquiry cap " ++ numOptStr (govBalanceCap p)⟩

/-- Action type rule, guarded by a truthy action type and a present
allowed actions list in the permissions entry. -/
def grActionType : PolicyRule GovPassport GovContext :=
  ⟨"oap.action_forbidden",
   fun p c => c.action_type.truthy &&
     (match govPermsFor p c.data_classification with
      | some perms =>
        match perms.allowed_actions with
        | some l => !(jsIncludes l c.action_type)
        | none => false
      | none => false),
   fun _ c => "Action type " ++ c.action_type.toStr ++
     " is not allowed for " ++ c.data_classification.toStr ++ " data"⟩

/-- The rules of the data access evaluator in declared order. -/
def govRules : List (PolicyRule GovPassport GovContext) :=
  [grStatus, grCap, grAssurance, grClassification, grEntityType,
   grJurisdiction, grRowLimit, grDestJurisdiction, grBalance, grActionType]

/-- The allow decision of the data access evaluator. -/
def govAllow : Decision :=
  ⟨true, [⟨"oap.allowed",
    "Data access within limits and policy requirements", "info"⟩]⟩

/-- The deny decision for a data access context failing required-field
validation. -/
def govInvalidContext (c : GovContext) : Decision :=
  ⟨false, [⟨"oap.invalid_context",
    "Missing required fields: " ++
      String.intercalate (", ") (govMissingFields c), "error"⟩]⟩

/-- The data access evaluator: the exact chain of early-return checks of
evaluateGovernanceDataAccessV1. -/
def evaluateGovernanceDataAccessV1
    (p : GovPassport) (c : GovContext) : Decision :=
  if grStatus.fires p c then ruleDeny grStatus p c
  else if grCap.fires p c then ruleDeny grCap p c
  else if grAssurance.fires p c then ruleDeny grAssurance p c
  else if (govMissingFields c).length > 0 then govInvalidContext c
  else if grClassification.fires p c then ruleDeny grClassification p c
  else if grEntityType.fires p c then ruleDeny grEntityType p c
  else if grJurisdiction.fires p c then ruleDeny grJurisdiction p c
  else if grRowLimit.fires p c then ruleDeny grRowLimit p c
  else if grDestJurisdiction.fires p c then ruleDeny grDestJurisdiction p c
  else if grBalance.fires p c then ruleDeny grBalance p c
  else if grActionType.fires p c then ruleDeny grActionType p c
  else govAllow

/-! ## legal.contract.review.v1 -/

/-- The limits object resolved from limits.legal.contract.review of a
passport for the legal contract review policy. -/
structure LegalLimits where
  require_assurance_at_least : Option String := none
  allowed_document_types : Option (List String) := none
  max_document_size_mb : Option Int := none
  allowed_contract_jurisdictions : Option (List String) := none
  require_attorney_review : Option Bool := none
  privilege_protection_enabled : Option Bool := none
  allowed_client_tiers : Option (List String) := none
  idempotency_required : Option Bool := none
deriving DecidableEq, Repr

/-- A passport as read by the legal contract review evaluator. -/
structure LegalPassport where
  status : String
  assurance_level : String
  capabilities : Option (List Capability) := none
  limits : Option LegalLimits := none
deriving DecidableEq, Repr

/-- A request context as read by the legal contract review evaluator. -/
structure LegalContext where
  document_type : JsVal := .absent
  client_id : JsVal := .absent
  jurisdiction : JsVal := .absent
  action_type : JsVal := .absent
  idempotency_key : JsVal := .absent
  document_size_mb : JsVal := .absent
  contract_value_usd : JsVal := .absent
  attorney_reviewer_id : JsVal := .absent
  privilege_level : JsVal := .absent
  client_tier : JsVal := .absent
deriving DecidableEq, Repr

/-- String-keyed field access on a legal contract review context. -/
def LegalContext.get (c : LegalContext) (f : String) : JsVal :=
  if f == "document_type" then c.document_type
  else if f == "client_id" then c.client_id
  else if f == "jurisdiction" then c.jurisdiction
  else if f == "action_type" then c.action_type
  else if f == "idempotency_key" then c.idempotency_key
  else if f == "document_size_mb" then c.document_size_mb
  else if f == "contract_value_usd" then c.contract_value_usd
  else if f == "attorney_reviewer_id" then c.attorney_reviewer_id
  else if f == "privilege_level" then c.privilege_level
  else if f == "client_tier" then c.client_tier
  else .absent

/-- The required context fields of the legal contract review policy. -/
def legalRequiredFields : List String :=
  ["document_type", "client_id", "jurisdiction", "action_type",
   "idempotency_key"]

/-- The required fields missing from a legal context. -/
def legalMissingFields (c : LegalContext) : List String :=
  legalRequiredFields.filter fun f => !(c.get f).truthy

/-- The ordered assurance scale used by the legal evaluator. -/
def assuranceLevels : List String :=
  ["L0", "L1", "L2", "L3", "L4KYC", "L4FIN"]

/-- Array.prototype.indexOf on the assurance scale: the position of the
level, or minus one when it is not on the scale. -/
def assuranceIndex (s : String) : Int :=
  match assuranceLevels.findIdx? fun t => t == s with
  | some i => (i : Int)
  | none => -1

/-- The required assurance of the legal policy, defaulting to L3. -/
def legalRequiredAssurance (p : LegalPassport) : String :=
  strOr (p.limits.bind fun l => l.require_assurance_at_least) ("L3")

/-- The resolved allowed document types limit. -/
def legalAllowedDocTypes (p : LegalPassport) : List String :=
  listOr (p.limits.bind fun l => l.allowed_document_types)

/-- The resolved document size limit. -/
def legalMaxDocSize (p : LegalPassport) : Option Int :=
  p.limits.bind fun l => l.max_document_size_mb

/-- The resolved allowed contract jurisdictions limit. -/
def legalAllowedJurisdictions (p : LegalPassport) : List String :=
  listOr (p.limits.bind fun l => l.allowed_contract_jurisdictions)

/-- Truthiness of the attorney review requirement flag. -/
def legalRequireAttorney (p : LegalPassport) : Bool :=
  ((p.limits.bind fun l => l.require_attorney_review)).getD false

/-- Truthiness of the privilege protection flag. -/
def legalPrivilegeEnabled (p : LegalPassport) : Bool :=
  ((p.limits.bind fun l => l.privilege_protection_enabled)).getD false

/-- The resolved allowed client tiers limit. -/
def legalAllowedClientTiers (p : LegalPassport) : List String :=
  listOr (p.limits.bind fun l => l.allowed_client_tiers)

/-- The idempotency requirement flag, resolved with the nullish
coalescing default false used by the source. -/
def legalIdempotencyRequired (p : LegalPassport) : Bool :=
  ((p.limits.bind fun l => l.idempotency_required)).getD false

/-- Agent status rule of the legal evaluator. -/
def lrStatus : PolicyRule LegalPassport LegalContext :=
  ⟨"oap.passport_suspended",
   fun p _ => p.status == "suspended" || p.status == "revoked",
   fun p _ => "Agent is " ++ p.status ++ " and cannot perform operations"⟩

/-- Capability rule: deny when legal.contract.review is not granted. -/
def lrCap : PolicyRule LegalPassport LegalContext :=
  ⟨"oap.unknown_capability",
   fun p _ => !(hasCapability p.capabilities ("legal.contract.review")),
   fun _ _ => "Agent does not have legal.contract.review capability"⟩

/-- Assurance rule of the legal evaluator: an ordered comparison of
positions on the assurance scale, via indexOf as in the source. -/
def lrAssurance : PolicyRule LegalPassport LegalContext :=
  ⟨"oap.assurance_insufficient",
   fun p _ =>
     assuranceIndex p.assurance_level <
       assuranceIndex (legalRequiredAssurance p),
   fun p _ => "Assurance level " ++ p.assurance_level ++
     " is insufficient, requires " ++ legalRequiredAssurance p⟩

/-- Document type allowlist rule. -/
def lrDocType : PolicyRule LegalPassport LegalContext :=
  ⟨"oap.document_type_forbidden",
   fun p c => !(legalAllowedDocTypes p).isEmpty &&
     !(jsIncludes (legalAllowedDocTypes p) c.document_type),
   fun _ c => "Document type " ++ c.document_type.toStr ++
     " is not allowed"⟩

/-- Document size limit rule, guarded by a truthy size field. -/
def lrDocSize : PolicyRule LegalPassport LegalContext :=
  ⟨"oap.document_size_exceeded",
   fun p c => c.document_size_mb.truthy &&
     jsGtOpt c.document_size_mb (legalMaxDocSize p),
   fun p c => "Document size " ++ c.document_size_mb.toStr ++
     "MB exceeds maximum allowed " ++ numOptStr (legalMaxDocSize p) ++ "MB"⟩

/-- Jurisdiction allowlist rule of the legal evaluator. -/
def lrJurisdiction : PolicyRule LegalPassport LegalContext :=
  ⟨"oap.jurisdiction_blocked",
   fun p c => !(legalAllowedJurisdictions p).isEmpty &&
     !(jsIncludes (legalAllowedJurisdictions p) c.jurisdiction),
   fun _ c => "Jurisdiction " ++ c.jurisdiction.toStr ++
     " is not authorized for contract review"⟩

/-- High-value review rule, checked first among the attorney review
rules: a truthy contract value of at least 1000000 minor units without an
attorney reviewer id denies with the more specific code. -/
def lrHighValue : PolicyRule LegalPassport LegalContext :=
  ⟨"oap.high_value_review_required",
   fun _ c => c.contract_value_usd.truthy &&
     jsGe c.contract_value_usd 1000000 &&
     !c.attorney_reviewer_id.truthy,
   fun _ _ =>
     "High-value contracts (over $10,000) require attorney review"⟩

/-- Generic attorney review rule, checked after the high-value rule. -/
def lrAttorney : PolicyRule LegalPassport LegalContext :=
  ⟨"oap.attorney_review_required",
   fun p c => legalRequireAttorney p && !c.attorney_reviewer_id.truthy,
   fun _ _ =>
     "Attorney review is required but attorney_reviewer_id is missing"⟩

/-- Privilege protection rule. -/
def lrPrivilege : PolicyRule LegalPassport LegalContext :=
  ⟨"oap.privilege_protection_violation",
   fun p c => legalPrivilegeEnabled p && !c.privilege_level.truthy,
   fun _ _ =>
     "Privilege protection is enabled but privilege_level is missing"⟩

/-- Client tier allowlist rule, guarded by a truthy client tier. -/
def lrClientTier : PolicyRule LegalPassport LegalContext :=
  ⟨"oap.client_tier_forbidden",
   fun p c => c.client_tier.truthy &&
     !(legalAllowedClientTiers p).isEmpty &&
     !(jsIncludes (legalAllowedClientTiers p) c.client_tier),
   fun _ c => "Client tier " ++ c.client_tier.toStr ++
     " is not authorized"⟩

/-- Idempotency rule: deny when the idempotency requirement is set and
the key is missing. -/
def lrIdempotency : PolicyRule LegalPassport LegalContext :=
  ⟨"oap.idempotency_conflict",
   fun p c => legalIdempotencyRequired p && !c.idempotency_key.truthy,
   fun _ _ => "Idempotency key is required"⟩

/-- The rules of the legal contract review evaluator in declared order. -/
def legalRules : List (PolicyRule LegalPassport LegalContext) :=
  [lrStatus, lrCap, lrAssurance, lrDocType, lrDocSize, lrJurisdiction,
   lrHighValue, lrAttorney, lrPrivilege, lrClientTier, lrIdempotency]

/-- The allow decision of the legal evaluator: no reasons. -/
def legalAllow : Decision :=
  ⟨true, []⟩

/-- The deny decision for a legal context failing required-field
validation. -/
def legalInvalidContext (c : LegalContext) : Decision :=
  ⟨false, [⟨"oap.invalid_context",
    "Missing required fields: " ++
      String.intercalate (", ") (legalMissingFields c), "error"⟩]⟩

/-- The legal contract review evaluator: the exact chain of early-return
checks of evaluateLegalContractReviewV1. -/
def evaluateLegalContractReviewV1
    (p : LegalPassport) (c : LegalContext) : Decision :=
  if lrStatus.fires p c then ruleDeny lrStatus p c
  else if lrCap.fires p c then ruleDeny lrCap p c
  else if lrAssurance.fires p c then ruleDeny lrAssurance p c
  else if (legalMissingFields c).length > 0 then legalInvalidContext c
  else if lrDocType.fires p c then ruleDeny lrDocType p c
  else if lrDocSize.fires p c then ruleDeny lrDocSize p c
  else if lrJurisdiction.fires p c then ruleDeny lrJurisdiction p c
  else if lrHighValue.fires p c then ruleDeny lrHighValue p c
  else if lrAttorney.fires p c then ruleDeny lrAttorney p c
  else if lrPrivilege.fires p c then ruleDeny lrPrivilege p c
  else if lrClientTier.fires p c then ruleDeny lrClientTier p c
  else if lrIdempotency.fires p c then ruleDeny lrIdempotency p c
  else legalAllow

/-! ## Concrete fixtures used by witnesses and counterexamples -/

/-- A finance passport passing every passport-level check. -/
def financePassportOk : FinancePassport :=
  { status := "active", assurance_level := "L3",
    capabilities := some [⟨"finance.transaction"⟩] }

/-- A finance context with every required field present and truthy. -/
def financeContextOk : FinanceContext :=
  { transaction_type := .vstr "transfer", amount := .vnum 100,
    currency := .vstr "USD", asset_class := .vstr "equity",
    source_account_id := .vstr "a1", destination_account_id := .vstr "b1" }

/-- A finance passport whose limits require assurance at least L1, held
by an agent verified at exactly L1. -/
def financePassportL1 : FinancePassport :=
  { status := "active", assurance_level := "L1",
    capabilities := some [⟨"finance.transaction"⟩],
    limits := some { require_assurance_at_least := some "L1" } }

/-- The same passport as financePassportL1 except that the agent is
verified at the strictly higher level L3. -/
def financePassportL3 : FinancePassport :=
  { financePassportL1 with assurance_level := "L3" }

/-- A finance context omitting two required fields, amount and
destination_account_id. -/
def financeContextMissingTwo : FinanceContext :=
  { transaction_type := .vstr "transfer", currency := .vstr "USD",
    asset_class := .vstr "equity", source_account_id := .vstr "a1" }

/-- A finance passport allowing only transfer transactions. -/
def financePassportTxOnly : FinancePassport :=
  { status := "active", assurance_level := "L3",
    capabilities := some [⟨"finance.transaction"⟩],
    limits := some { allowed_transaction_types := some ["transfer"] } }

/-- A finance context requesting a wire transaction. -/
def financeContextWire : FinanceContext :=
  { financeContextOk with transaction_type := .vstr "wire" }

/-- A data access passport allowing only the public classification. -/
def govPassportPublicOnly : GovPassport :=
  { status := "active", assurance_level := "L3",
    capabilities := some [⟨"data.access"⟩],
    limits := some { allowed_classifications := some ["public"] } }

/-- A data access context requesting the secret classification. -/
def govContextSecret : GovContext :=
  { data_classification := .vstr "secret",
    accessing_entity_id := .vstr "e1",
    accessing_entity_type := .vstr "service",
    resource_id := .vstr "r1" }

/-- A suspended finance passport. -/
def financePassportSuspended : FinancePassport :=
  { financePassportOk with status := "suspended" }

/-- A suspended data access passport. -/
def govPassportSuspended : GovPassport :=
  { govPassportPublicOnly with status := "suspended" }

/-- A revoked legal passport. -/
def legalPassportRevoked : LegalPassport :=
  { status := "revoked", assurance_level := "L3",
    capabilities := some [⟨"legal.contract.review"⟩] }

/-- An active legal passport passing every passport-level check. -/
def legalPassportOk : LegalPassport :=
  { status := "active", assurance_level := "L3",
    capabilities := some [⟨"legal.contract.review"⟩] }

/-- A legal context with every required field present and truthy. -/
def legalContextOk : LegalContext :=
  { document_type := .vstr "contract", client_id := .vstr "client_abc123",
    jurisdiction := .vstr "US", action_type := .vstr "review",
    idempotency_key := .vstr "unique-key-12345" }

/-! ## Claims -/

/-- C1: the spec claims that raising the assurance level never turns an
allow into a deny, all else equal.  The finance transaction evaluator
violates this: its assurance check is a strict equality test against the
required level (with only L4KYC and L4FIN exempt), so a passport whose
limits require assurance at least L1 is allowed when verified at exactly
L1 but denied as assurance-insufficient when verified at the higher
level L3, on the same context.  The legal evaluator in the same corpus
performs the ordered comparison, and the limit field is named
require_assurance_at_least, so the equality test contradicts the
intended semantics of its own inputs. -/
theorem finance_assurance_equality_denies_higher_level :
    (evaluateFinanceTransactionExecuteV1 financePassportL1
      financeContextOk).allow = true ∧
    (evaluateFinanceTransactionExecuteV1 financePassportL3
      financeContextOk).allow = false ∧
    (evaluateFinanceTransactionExecuteV1 financePassportL3
      financeContextOk).reasons.map Reason.code =
      ["oap.assurance_insufficient"] := by
  decide

/-- C2 counterexample: a finance context omitting two required fields is
denied with exactly one reason whose code is oap.invalid_context, not
with two reasons of code missing_required_field as the claim states. -/
theorem missing_fields_single_reason_counterexample :
    financeMissingFields financeContextMissingTwo =
      ["amount", "destination_account_id"] ∧
    (evaluateFinanceTransactionExecuteV1 financePassportOk
      financeContextMissingTwo).allow = false ∧
    (evaluateFinanceTransactionExecuteV1 financePassportOk
      financeContextMissingTwo).reasons.length = 1 ∧
    (evaluateFinanceTransactionExecuteV1 financePassportOk
      financeContextMissingTwo).reasons.map Reason.code =
      ["oap.invalid_context"] := by
  decide

/-- C2 amended: in each in-repo evaluator, a context missing at least one
required field is denied with exactly one reason whose code is
oap.invalid_context and whose message lists every omitted field; all
omissions are collected into that single message, not just the first. -/
theorem invalid_context_collects_all_missing_fields :
    (∀ (p : FinancePassport) (c : FinanceContext),
      frStatus.fires p c = false → frCap.fires p c = false →
      frAssurance.fires p c = false → financeMissingFields c ≠ [] →
      evaluateFinanceTransactionExecuteV1 p c =
        ⟨false, [⟨"oap.invalid_context",
          "Missing required fields: " ++
            String.intercalate (", ") (financeMissingFields c),
          "error"⟩]⟩) ∧
    (∀ (p : GovPassport) (c : GovContext),
      grStatus.fires p c = false → grCap.fires p c = false →
      grAssurance.fires p c = false → govMissingFields c ≠ [] →
      evaluateGovernanceDataAccessV1 p c =
        ⟨false, [⟨"oap.invalid_context",
          "Missing required fields: " ++
            String.intercalate (", ") (govMissingFields c),
          "error"⟩]⟩) ∧
    (∀ (p : LegalPassport) (c : LegalContext),
      lrStatus.fires p c = false → lrCap.fires p c = false →
      lrAssurance.fires p c = false → legalMissingFields c ≠ [] →
      evaluateLegalContractReviewV1 p c =
        ⟨false, [⟨"oap.invalid_context",
          "Missing required fields: " ++
            String.intercalate (", ") (legalMissingFields c),
          "error"⟩]⟩) := by
  refine ⟨?_, ?_, ?_⟩ <;>
  · intro p c h1 h2 h3 h4
    first
    | (unfold evaluateFinanceTransactionExecuteV1
       simp [h1, h2, h3, List.length_pos.mpr h4, financeInvalidContext])
    | (unfold evaluateGovernanceDataAccessV1
       simp [h1, h2, h3, List.length_pos.mpr h4, govInvalidContext])
    | (unfold evaluateLegalContractReviewV1
       simp [h1, h2, h3, List.length_pos.mpr h4, legalInvalidContext])

/-- C2 amended witness: the amended statement applied to the concrete
finance, governance and legal fixtures with omitted required fields. -/
theorem invalid_context_collects_all_missing_fields_witness :
    evaluateFinanceTransactionExecuteV1 financePassportOk
      financeContextMissingTwo =
      ⟨false, [⟨"oap.invalid_context",
        "Missing required fields: " ++
          String.intercalate (", ")
            (financeMissingFields financeContextMissingTwo),
        "error"⟩]⟩ ∧
    evaluateGovernanceDataAccessV1 govPassportPublicOnly
      { govContextSecret with resource_id := .absent } =
      ⟨false, [⟨"oap.invalid_context",
        "Missing required fields: " ++
          String.intercalate (", ")
            (govMissingFields { govContextSecret with resource_id := .absent }),
        "error"⟩]⟩ ∧
    evaluateLegalContractReviewV1 legalPassportOk
      { legalContextOk with client_id := .vstr "" } =
      ⟨false, [⟨"oap.invalid_context",
        "Missing required fields: " ++
          String.intercalate (", ")
            (legalMissingFields { legalContextOk with client_id := .vstr "" }),
        "error"⟩]⟩ :=
  ⟨invalid_context_collects_all_missing_fields.1 _ _ rfl rfl rfl
    (by decide),
   invalid_context_collects_all_missing_fields.2.1 _ _ rfl rfl rfl
    (by decide),
   invalid_context_collects_all_missing_fields.2.2 _ _ rfl rfl rfl
    (by decide)⟩

/-- C5: a suspended or revoked passport is denied with the single reason
oap.passport_suspended by each evaluator, for every context and
regardless of capabilities and assurance level: the status check is the
first rule of every chain. -/
theorem suspended_passport_always_sole_reason :
    (∀ (p : FinancePassport) (c : FinanceContext),
      p.status = "suspended" ∨ p.status = "revoked" →
      evaluateFinanceTransactionExecuteV1 p c =
        ⟨false, [⟨"oap.passport_suspended",
          "Agent is " ++ p.status ++ " and cannot perform operations",
          "error"⟩]⟩) ∧
    (∀ (p : GovPassport) (c : GovContext),
      p.status = "suspended" ∨ p.status = "revoked" →
      evaluateGovernanceDataAccessV1 p c =
        ⟨false, [⟨"oap.passport_suspended",
          "Agent is " ++ p.status ++ " and cannot perform operations",
          "error"⟩]⟩) ∧
    (∀ (p : LegalPassport) (c : LegalContext),
      p.status = "suspended" ∨ p.status = "revoked" →
      evaluateLegalContractReviewV1 p c =
        ⟨false, [⟨"oap.passport_suspended",
          "Agent is " ++ p.status ++ " and cannot perform operations",
          "error"⟩]⟩) := by
  refine ⟨?_, ?_, ?_⟩ <;>
  · intro p c h
    have hf : (p.status == "suspended" || p.status == "revoked") = true := by
      rcases h with h | h <;> simp [h]
    first
    | (unfold evaluateFinanceTransactionExecuteV1
       simp [frStatus, hf, ruleDeny])
    | (unfold evaluateGovernanceDataAccessV1
       simp [grStatus, hf, ruleDeny])
    | (unfold evaluateLegalContractReviewV1
       simp [lrStatus, hf, ruleDeny])

/-- C5 witness: the theorem applied to a suspended finance passport, a
suspended data access passport and a revoked legal passport. -/
theorem suspended_passport_always_sole_reason_witness :
    evaluateFinanceTransactionExecuteV1 financePassportSuspended
      financeContextOk =
      ⟨false, [⟨"oap.passport_suspended",
        "Agent is " ++ financePassportSuspended.status ++
          " and cannot perform operations", "error"⟩]⟩ ∧
    evaluateGovernanceDataAccessV1 govPassportSuspended govContextSecret =
      ⟨false, [⟨"oap.passport_suspended",
        "Agent is " ++ govPassportSuspended.status ++
          " and cannot perform operations", "error"⟩]⟩ ∧
    evaluateLegalContractReviewV1 legalPassportRevoked legalContextOk =
      ⟨false, [⟨"oap.passport_suspended",
        "Agent is " ++ legalPassportRevoked.status ++
          " and cannot perform operations", "error"⟩]⟩ :=
  ⟨suspended_passport_always_sole_reason.1 _ _ (Or.inl rfl),
   suspended_passport_always_sole_reason.2.1 _ _ (Or.inl rfl),
   suspended_passport_always_sole_reason.2.2 _ _ (Or.inr rfl)⟩

/-- Membership of a code among the reason codes of a rule deny decision
is equality with that rule code. -/
theorem mem_ruleDeny_code {P C : Type} (r : PolicyRule P C) (p : P)
    (c : C) (s : String) :
    s ∈ (ruleDeny r p c).reasons.map Reason.code ↔ s = r.code := by
  simp [ruleDeny]

/-- A rule chain folded from the right: each rule short-circuits to its
deny decision when it fires, otherwise defers to the rest of the chain. -/
def chainRules {P C : Type} (p : P) (c : C)
    (rules : List (PolicyRule P C)) (tail : Decision) : Decision :=
  rules.foldr (fun rl d => if rl.fires p c then ruleDeny rl p c else d) tail

/-- The first firing rule of a chain determines its decision. -/
theorem chainRules_find_first {P C : Type} (p : P) (c : C) :
    ∀ (rules : List (PolicyRule P C)) (tail : Decision)
      (r : PolicyRule P C),
      rules.find? (fun rl => rl.fires p c) = some r →
      chainRules p c rules tail = ruleDeny r p c := by
  intro rules
  induction rules with
  | nil =>
    intro tail r h
    simp at h
  | cons a l ih =>
    intro tail r h
    cases ha : a.fires p c with
    | true =>
      simp only [List.find?, ha] at h
      injection h with h
      subst h
      simp [chainRules, ha]
    | false =>
      simp only [List.find?, ha] at h
      simp only [chainRules, List.foldr_cons, ha, Bool.false_eq_true,
        if_false]
      exact ih tail r h

/-- Case analysis on the origin of a reason code of a rule chain: it is
the code of a rule of the chain that fires, or a code of the tail. -/
theorem chainRules_code_cases {P C : Type} (p : P) (c : C) :
    ∀ (rules : List (PolicyRule P C)) (tail : Decision) (s : String),
      s ∈ (chainRules p c rules tail).reasons.map Reason.code →
      (∃ r, r ∈ rules ∧ r.fires p c = true ∧ s = r.code) ∨
        s ∈ tail.reasons.map Reason.code := by
  intro rules
  induction rules with
  | nil =>
    intro tail s h
    exact Or.inr h
  | cons a l ih =>
    intro tail s h
    by_cases ha : a.fires p c = true
    · simp only [chainRules, List.foldr_cons, if_pos ha] at h
      exact Or.inl ⟨a, List.mem_cons_self a l, ha,
        (mem_ruleDeny_code a p c s).mp h⟩
    · simp only [chainRules, List.foldr_cons, if_neg ha] at h
      rcases ih tail s h with ⟨r, hr, hf, hc⟩ | hs
      · exact Or.inl ⟨r, List.mem_cons_of_mem a hr, hf, hc⟩
      · exact Or.inr hs

/-- The finance evaluator written as its two rule chains around the
required-field validation step. -/
theorem financeEval_eq_chains (p : FinancePassport) (c : FinanceContext) :
    evaluateFinanceTransactionExecuteV1 p c =
      chainRules p c [frStatus, frCap, frAssurance]
        (if (financeMissingFields c).length > 0 then
          financeInvalidContext c
         else
          chainRules p c [frTxType, frAssetClass, frExposure,
            frRestrictedSrc, frAllowedSrc, frCommingling, frCounterparty]
            financeAllow) :=
  rfl

/-- The data access evaluator written as its two rule chains around the
required-field validation step. -/
theorem govEval_eq_chains (p : GovPassport) (c : GovContext) :
    evaluateGovernanceDataAccessV1 p c =
      chainRules p c [grStatus, grCap, grAssurance]
        (if (govMissingFields c).length > 0 then govInvalidContext c
         else
          chainRules p c [grClassification, grEntityType, grJurisdiction,
            grRowLimit, grDestJurisdiction, grBalance, grActionType]
            govAllow) :=
  rfl

/-- The legal evaluator written as its two rule chains around the
required-field validation step. -/
theorem legalEval_eq_chains (p : LegalPassport) (c : LegalContext) :
    evaluateLegalContractReviewV1 p c =
      chainRules p c [lrStatus, lrCap, lrAssurance]
        (if (legalMissingFields c).length > 0 then legalInvalidContext c
         else
          chainRules p c [lrDocType, lrDocSize, lrJurisdiction,
            lrHighValue, lrAttorney, lrPrivilege, lrClientTier,
            lrIdempotency] legalAllow) :=
  rfl

/-- Every reason code of a finance decision is the code of a firing rule
of the evaluator, or the invalid context code, or the allow code. -/
theorem financeEval_code_mem (p : FinancePassport) (c : FinanceContext)
    (s : String)
    (hs : s ∈ (evaluateFinanceTransactionExecuteV1 p c).reasons.map
      Reason.code) :
    (∃ r, r ∈ financeRules ∧ r.fires p c = true ∧ s = r.code) ∨
      s = "oap.invalid_context" ∨ s = "oap.allowed" := by
  rw [financeEval_eq_chains] at hs
  rcases chainRules_code_cases p c _ _ _ hs with ⟨r, hr, hf, hc⟩ | hs2
  · refine Or.inl ⟨r, ?_, hf, hc⟩
    unfold financeRules
    simp only [List.mem_cons, List.not_mem_nil, or_false] at hr ⊢
    tauto
  · by_cases hm : (financeMissingFields c).length > 0
    · rw [if_pos hm] at hs2
      simp [financeInvalidContext] at hs2
      exact Or.inr (Or.inl hs2)
    · rw [if_neg hm] at hs2
      rcases chainRules_code_cases p c _ _ _ hs2 with ⟨r, hr, hf, hc⟩ | hs3
      · refine Or.inl ⟨r, ?_, hf, hc⟩
        unfold financeRules
        simp only [List.mem_cons, List.not_mem_nil, or_false] at hr ⊢
        tauto
      · simp [financeAllow] at hs3
        exact Or.inr (Or.inr hs3)

/-- Every reason code of a data access decision is the code of a firing
rule of the evaluator, or the invalid context code, or the allow code. -/
theorem govEval_code_mem (p : GovPassport) (c : GovContext) (s : String)
    (hs : s ∈ (evaluateGovernanceDataAccessV1 p c).reasons.map
      Reason.code) :
    (∃ r, r ∈ govRules ∧ r.fires p c = true ∧ s = r.code) ∨
      s = "oap.invalid_context" ∨ s = "oap.allowed" := by
  rw [govEval_eq_chains] at hs
  rcases chainRules_code_cases p c _ _ _ hs with ⟨r, hr, hf, hc⟩ | hs2
  · refine Or.inl ⟨r, ?_, hf, hc⟩
    unfold govRules
    simp only [List.mem_cons, List.not_mem_nil, or_false] at hr ⊢
    tauto
  · by_cases hm : (govMissingFields c).length > 0
    · rw [if_pos hm] at hs2
      simp [govInvalidContext] at hs2
      exact Or.inr (Or.inl hs2)
    · rw [if_neg hm] at hs2
      rcases chainRules_code_cases p c _ _ _ hs2 with ⟨r, hr, hf, hc⟩ | hs3
      · refine Or.inl ⟨r, ?_, hf, hc⟩
        unfold govRules
        simp only [List.mem_cons, List.not_mem_nil, or_false] at hr ⊢
        tauto
      · simp [govAllow] at hs3
        exact Or.inr (Or.inr hs3)

/-- Every reason code of a legal decision is the code of a firing rule
of the evaluator or the invalid context code; an allow decision of the
legal evaluator carries no reasons at all. -/
theorem legalEval_code_mem (p : LegalPassport) (c : LegalContext)
    (s : String)
    (hs : s ∈ (evaluateLegalContractReviewV1 p c).reasons.map
      Reason.code) :
    (∃ r, r ∈ legalRules ∧ r.fires p c = true ∧ s = r.code) ∨
      s = "oap.invalid_context" := by
  rw [legalEval_eq_chains] at hs
  rcases chainRules_code_cases p c _ _ _ hs with ⟨r, hr, hf, hc⟩ | hs2
  · refine Or.inl ⟨r, ?_, hf, hc⟩
    unfold legalRules
    simp only [List.mem_cons, List.not_mem_nil, or_false] at hr ⊢
    tauto
  · by_cases hm : (legalMissingFields c).length > 0
    · rw [if_pos hm] at hs2
      simp [legalInvalidContext] at hs2
      exact Or.inr hs2
    · rw [if_neg hm] at hs2
      rcases chainRules_code_cases p c _ _ _ hs2 with ⟨r, hr, hf, hc⟩ | hs3
      · refine Or.inl ⟨r, ?_, hf, hc⟩
        unfold legalRules
        simp only [List.mem_cons, List.not_mem_nil, or_false] at hr ⊢
        tauto
      · simp [legalAllow] at hs3

/-- On a context passing required-field validation, the finance
evaluator is the chain of its rules in declared order. -/
theorem financeEval_eq_chain (p : FinancePassport) (c : FinanceContext)
    (hmiss : financeMissingFields c = []) :
    evaluateFinanceTransactionExecuteV1 p c =
      chainRules p c financeRules financeAllow := by
  unfold evaluateFinanceTransactionExecuteV1
  simp [chainRules, financeRules, hmiss]

/-- On a context passing required-field validation, the data access
evaluator is the chain of its rules in declared order. -/
theorem govEval_eq_chain (p : GovPassport) (c : GovContext)
    (hmiss : govMissingFields c = []) :
    evaluateGovernanceDataAccessV1 p c =
      chainRules p c govRules govAllow := by
  unfold evaluateGovernanceDataAccessV1
  simp [chainRules, govRules, hmiss]

/-- On a context passing required-field validation, the legal evaluator
is the chain of its rules in declared order. -/
theorem legalEval_eq_chain (p : LegalPassport) (c : LegalContext)
    (hmiss : legalMissingFields c = []) :
    evaluateLegalContractReviewV1 p c =
      chainRules p c legalRules legalAllow := by
  unfold evaluateLegalContractReviewV1
  simp [chainRules, legalRules, hmiss]

/-- C3: when required-field validation succeeds and some rule fails,
each evaluator stops at the first failing rule in declared order and
returns a deny with exactly one reason carrying that rule code; rules
after the first failing one contribute no reasons. -/
theorem first_failing_rule_sole_reason :
    (∀ (p : FinancePassport) (c : FinanceContext)
        (r : PolicyRule FinancePassport FinanceContext),
      financeMissingFields c = [] →
      financeRules.find? (fun rl => rl.fires p c) = some r →
      evaluateFinanceTransactionExecuteV1 p c =
        ⟨false, [⟨r.code, r.msg p c, "error"⟩]⟩) ∧
    (∀ (p : GovPassport) (c : GovContext)
        (r : PolicyRule GovPassport GovContext),
      govMissingFields c = [] →
      govRules.find? (fun rl => rl.fires p c) = some r →
      evaluateGovernanceDataAccessV1 p c =
        ⟨false, [⟨r.code, r.msg p c, "error"⟩]⟩) ∧
    (∀ (p : LegalPassport) (c : LegalContext)
        (r : PolicyRule LegalPassport LegalContext),
      legalMissingFields c = [] →
      legalRules.find? (fun rl => rl.fires p c) = some r →
      evaluateLegalContractReviewV1 p c =
        ⟨false, [⟨r.code, r.msg p c, "error"⟩]⟩) := by
  refine ⟨?_, ?_, ?_⟩
  · intro p c r hmiss hfind
    rw [financeEval_eq_chain p c hmiss]
    exact chainRules_find_first p c financeRules financeAllow r hfind
  · intro p c r hmiss hfind
    rw [govEval_eq_chain p c hmiss]
    exact chainRules_find_first p c govRules govAllow r hfind
  · intro p c r hmiss hfind
    rw [legalEval_eq_chain p c hmiss]
    exact chainRules_find_first p c legalRules legalAllow r hfind

/-- C3 witness: the theorem applied to a finance context failing the
transaction type rule, a data access context failing the classification
rule, and a legal passport failing the status rule. -/
theorem first_failing_rule_sole_reason_witness :
    evaluateFinanceTransactionExecuteV1 financePassportTxOnly
      financeContextWire =
      ⟨false, [⟨frTxType.code,
        frTxType.msg financePassportTxOnly financeContextWire,
        "error"⟩]⟩ ∧
    evaluateGovernanceDataAccessV1 govPassportPublicOnly govContextSecret =
      ⟨false, [⟨grClassification.code,
        grClassification.msg govPassportPublicOnly govContextSecret,
        "error"⟩]⟩ ∧
    evaluateLegalContractReviewV1 legalPassportRevoked legalContextOk =
      ⟨false, [⟨lrStatus.code,
        lrStatus.msg legalPassportRevoked legalContextOk,
        "error"⟩]⟩ :=
  ⟨first_failing_rule_sole_reason.1 _ _ frTxType rfl rfl,
   first_failing_rule_sole_reason.2.1 _ _ grClassification rfl rfl,
   first_failing_rule_sole_reason.2.2 _ _ lrStatus rfl rfl⟩

/-- A legal passport whose limits require attorney review. -/
def legalPassportAttorney : LegalPassport :=
  { status := "active", assurance_level := "L3",
    capabilities := some [⟨"legal.contract.review"⟩],
    limits := some { require_attorney_review := some true } }

/-- A legal context for a 1500000 minor unit contract with no attorney
reviewer id. -/
def legalContextHighValue : LegalContext :=
  { legalContextOk with contract_value_usd := .vnum 1500000 }

/-- C4: in the legal evaluator, when the attorney reviewer id is missing
and both the generic attorney review requirement and the high-value
condition hold, and every earlier rule passes, the deny reason is the
more specific code oap.high_value_review_required: the high-value rule
is placed before the generic attorney review rule in the chain. -/
theorem high_value_review_precedes_attorney_review
    (p : LegalPassport) (c : LegalContext)
    (h1 : lrStatus.fires p c = false) (h2 : lrCap.fires p c = false)
    (h3 : lrAssurance.fires p c = false)
    (hmiss : legalMissingFields c = [])
    (h4 : lrDocType.fires p c = false) (h5 : lrDocSize.fires p c = false)
    (h6 : lrJurisdiction.fires p c = false)
    (hatt : c.attorney_reviewer_id.truthy = false)
    (_hreq : legalRequireAttorney p = true)
    (hval : c.contract_value_usd.truthy = true)
    (hge : jsGe c.contract_value_usd 1000000 = true) :
    evaluateLegalContractReviewV1 p c =
      ⟨false, [⟨"oap.high_value_review_required",
        "High-value contracts (over $10,000) require attorney review",
        "error"⟩]⟩ := by
  unfold evaluateLegalContractReviewV1
  simp [h1, h2, h3, hmiss, h4, h5, h6, lrHighValue, hatt, hval, hge,
    ruleDeny]

/-- C4 witness: a passport requiring attorney review and a 1500000 minor
unit contract without attorney reviewer id yield the high-value code. -/
theorem high_value_review_precedes_attorney_review_witness :
    legalRequireAttorney legalPassportAttorney = true ∧
    evaluateLegalContractReviewV1 legalPassportAttorney
      legalContextHighValue =
      ⟨false, [⟨"oap.high_value_review_required",
        "High-value contracts (over $10,000) require attorney review",
        "error"⟩]⟩ :=
  ⟨rfl,
   high_value_review_precedes_attorney_review legalPassportAttorney
     legalContextHighValue rfl rfl rfl rfl rfl rfl rfl rfl rfl rfl rfl⟩

/-- A finance passport with a 500000 minor unit per-transaction
exposure limit. -/
def financePassportMax : FinancePassport :=
  { status := "active", assurance_level := "L3",
    capabilities := some [⟨"finance.transaction"⟩],
    limits := some { max_exposure_per_tx_usd := some 500000 } }

/-- C6: boundary behavior of the amount checks in the finance evaluator
on an otherwise valid context with a configured per-transaction maximum
of at least one minor unit: amount zero is denied (it is falsy, hence
caught by required-field validation), amount one is allowed, amount
exactly at the maximum is allowed, and amount one above the maximum is
denied by the exposure limit rule. -/
theorem boundary_amount_checks
    (p : FinancePassport) (c : FinanceContext) (m : Int)
    (hmax : financeMaxExposure p = some m) (hm1 : 1 ≤ m)
    (h1 : frStatus.fires p c = false) (h2 : frCap.fires p c = false)
    (h3 : frAssurance.fires p c = false)
    (htx : c.transaction_type.truthy = true)
    (hcur : c.currency.truthy = true)
    (hac : c.asset_class.truthy = true)
    (hsrc : c.source_account_id.truthy = true)
    (hdst : c.destination_account_id.truthy = true)
    (h4 : frTxType.fires p c = false)
    (h5 : frAssetClass.fires p c = false)
    (h6 : frRestrictedSrc.fires p c = false)
    (h7 : frAllowedSrc.fires p c = false)
    (h8 : frCommingling.fires p c = false)
    (hcp : c.counterparty_id.truthy = false) :
    (evaluateFinanceTransactionExecuteV1 p
      { c with amount := .vnum 0 }).allow = false ∧
    (evaluateFinanceTransactionExecuteV1 p
      { c with amount := .vnum 1 }).allow = true ∧
    (evaluateFinanceTransactionExecuteV1 p
      { c with amount := .vnum m }).allow = true ∧
    (evaluateFinanceTransactionExecuteV1 p
      { c with amount := .vnum (m + 1) }).allow = false := by
  have hm0 : m ≠ 0 := by omega
  refine ⟨?_, ?_, ?_, ?_⟩
  · have e1 : frStatus.fires p { c with amount := .vnum 0 } = false := h1
    have e2 : frCap.fires p { c with amount := .vnum 0 } = false := h2
    have e3 : frAssurance.fires p { c with amount := .vnum 0 } = false := h3
    have hmiss0 : financeMissingFields { c with amount := .vnum 0 } =
        ["amount"] := by
      simp [financeMissingFields, financeRequiredFields,
        FinanceContext.get, htx, hcur, hac, hsrc, hdst, JsVal.truthy_vnum]
    unfold evaluateFinanceTransactionExecuteV1
    simp [e1, e2, e3, hmiss0, financeInvalidContext]
  · have e1 : frStatus.fires p { c with amount := .vnum 1 } = false := h1
    have e2 : frCap.fires p { c with amount := .vnum 1 } = false := h2
    have e3 : frAssurance.fires p { c with amount := .vnum 1 } = false := h3
    have e4 : frTxType.fires p { c with amount := .vnum 1 } = false := h4
    have e5 : frAssetClass.fires p { c with amount := .vnum 1 } = false := h5
    have e6 : frRestrictedSrc.fires p { c with amount := .vnum 1 } =
      false := h6
    have e7 : frAllowedSrc.fires p { c with amount := .vnum 1 } =
      false := h7
    have e8 : frCommingling.fires p { c with amount := .vnum 1 } =
      false := h8
    have hmiss1 : financeMissingFields { c with amount := .vnum 1 } =
        [] := by
      simp [financeMissingFields, financeRequiredFields,
        FinanceContext.get, htx, hcur, hac, hsrc, hdst, JsVal.truthy_vnum]
    have e9 : frExposure.fires p { c with amount := .vnum 1 } = false := by
      simp [frExposure, jsGtOpt, hmax, jsGt]
      omega
    have e10 : frCounterparty.fires p { c with amount := .vnum 1 } =
        false := by
      simp [frCounterparty, hcp]
    unfold evaluateFinanceTransactionExecuteV1
    simp [e1, e2, e3, e4, e5, e6, e7, e8, e9, e10, hmiss1, financeAllow]
  · have e1 : frStatus.fires p { c with amount := .vnum m } = false := h1
    have e2 : frCap.fires p { c with amount := .vnum m } = false := h2
    have e3 : frAssurance.fires p { c with amount := .vnum m } = false := h3
    have e4 : frTxType.fires p { c with amount := .vnum m } = false := h4
    have e5 : frAssetClass.fires p { c with amount := .vnum m } = false := h5
    have e6 : frRestrictedSrc.fires p { c with amount := .vnum m } =
      false := h6
    have e7 : frAllowedSrc.fires p { c with amount := .vnum m } =
      false := h7
    have e8 : frCommingling.fires p { c with amount := .vnum m } =
      false := h8
    have hmissm : financeMissingFields { c with amount := .vnum m } =
        [] := by
      have hmb : (m != 0) = true := by simpa using hm0
      simp [financeMissingFields, financeRequiredFields,
        FinanceContext.get, htx, hcur, hac, hsrc, hdst, JsVal.truthy_vnum,
        hmb]
    have e9 : frExposure.fires p { c with amount := .vnum m } = false := by
      simp [frExposure, jsGtOpt, hmax, jsGt]
    have e10 : frCounterparty.fires p { c with amount := .vnum m } =
        false := by
      simp [frCounterparty, hcp]
    unfold evaluateFinanceTransactionExecuteV1
    simp [e1, e2, e3, e4, e5, e6, e7, e8, e9, e10, hmissm, financeAllow]
  · have e1 : frStatus.fires p { c with amount := .vnum (m + 1) } =
      false := h1
    have e2 : frCap.fires p { c with amount := .vnum (m + 1) } =
      false := h2
    have e3 : frAssurance.fires p { c with amount := .vnum (m + 1) } =
      false := h3
    have e4 : frTxType.fires p { c with amount := .vnum (m + 1) } =
      false := h4
    have e5 : frAssetClass.fires p { c with amount := .vnum (m + 1) } =
      false := h5
    have hmissm1 : financeMissingFields { c with amount := .vnum (m + 1) } =
        [] := by
      have hmb : (m + 1 != 0) = true := by
        have : m + 1 ≠ 0 := by omega
        simpa using this
      simp [financeMissingFields, financeRequiredFields,
        FinanceContext.get, htx, hcur, hac, hsrc, hdst, JsVal.truthy_vnum,
        hmb]
    have e9 : frExposure.fires p { c with amount := .vnum (m + 1) } =
        true := by
      simp [frExposure, jsGtOpt, hmax, jsGt]
      omega
    unfold evaluateFinanceTransactionExecuteV1
    simp [e1, e2, e3, e4, e5, e9, hmissm1, ruleDeny]

/-- C6 witness: the boundary amounts zero, one, the 500000 limit and
500001 on the concrete fixture passport and context. -/
theorem boundary_amount_checks_witness :
    (evaluateFinanceTransactionExecuteV1 financePassportMax
      { financeContextOk with amount := .vnum 0 }).allow = false ∧
    (evaluateFinanceTransactionExecuteV1 financePassportMax
      { financeContextOk with amount := .vnum 1 }).allow = true ∧
    (evaluateFinanceTransactionExecuteV1 financePassportMax
      { financeContextOk with amount := .vnum 500000 }).allow = true ∧
    (evaluateFinanceTransactionExecuteV1 financePassportMax
      { financeContextOk with amount := .vnum (500000 + 1) }).allow =
      false :=
  boundary_amount_checks financePassportMax financeContextOk 500000
    rfl (by decide) rfl rfl rfl rfl rfl rfl rfl rfl rfl rfl rfl rfl rfl
    rfl

/-- A finance context transferring client funds to a proprietary
account, with every required field present. -/
def financeContextCommingling : FinanceContext :=
  { financeContextOk with
    source_account_type := .vstr "client_funds",
    destination_account_type := .vstr "proprietary" }

/-- C7: in the finance evaluator, a context moving client funds to a
proprietary account that passes every earlier check is denied with the
single reason oap.commingling_of_funds_forbidden, and whenever either of
the two account type fields differs from that pair the commingling code
never appears in the decision. -/
theorem commingling_of_funds_rule_exact :
    (∀ (p : FinancePassport) (c : FinanceContext),
      frStatus.fires p c = false → frCap.fires p c = false →
      frAssurance.fires p c = false → financeMissingFields c = [] →
      frTxType.fires p c = false → frAssetClass.fires p c = false →
      frExposure.fires p c = false → frRestrictedSrc.fires p c = false →
      frAllowedSrc.fires p c = false →
      c.source_account_type = .vstr "client_funds" →
      c.destination_account_type = .vstr "proprietary" →
      evaluateFinanceTransactionExecuteV1 p c =
        ⟨false, [⟨"oap.commingling_of_funds_forbidden",
          "Cannot transfer from client funds to proprietary accounts",
          "error"⟩]⟩) ∧
    (∀ (p : FinancePassport) (c : FinanceContext),
      ¬(c.source_account_type = .vstr "client_funds" ∧
        c.destination_account_type = .vstr "proprietary") →
      "oap.commingling_of_funds_forbidden" ∉
        (evaluateFinanceTransactionExecuteV1 p c).reasons.map
          Reason.code) := by
  constructor
  · intro p c h1 h2 h3 hmiss h4 h5 h6 h7 h8 hs hd
    unfold evaluateFinanceTransactionExecuteV1
    simp [h1, h2, h3, hmiss, h4, h5, h6, h7, h8, frCommingling, jsEqStr,
      hs, hd, ruleDeny]
  · intro p c h
    have hf : frCommingling.fires p c = false := by
      simp only [frCommingling, jsEqStr, Bool.and_eq_false_iff, beq_eq_false_iff_ne]
      by_cases hs : c.source_account_type = .vstr "client_funds"
      · right
        intro hd
        exact h ⟨hs, hd⟩
      · left
        exact fun hx => hs hx
    intro hmem
    rcases financeEval_code_mem p c _ hmem with ⟨r, hr, hfire, hcode⟩ |
      hcode | hcode
    · unfold financeRules at hr
      simp only [List.mem_cons, List.not_mem_nil, or_false] at hr
      rcases hr with rfl | rfl | rfl | rfl | rfl | rfl | rfl | rfl |
        rfl | rfl <;>
        first
        | (exact absurd hcode (by decide))
        | (rw [hf] at hfire; exact Bool.noConfusion hfire)
    · exact absurd hcode (by decide)
    · exact absurd hcode (by decide)

/-- C7 witness: the rule fires on the concrete commingling context, and
the code is absent for a context whose destination is a client account. -/
theorem commingling_of_funds_rule_exact_witness :
    evaluateFinanceTransactionExecuteV1 financePassportOk
      financeContextCommingling =
      ⟨false, [⟨"oap.commingling_of_funds_forbidden",
        "Cannot transfer from client funds to proprietary accounts",
        "error"⟩]⟩ ∧
    "oap.commingling_of_funds_forbidden" ∉
      (evaluateFinanceTransactionExecuteV1 financePassportOk
        financeContextOk).reasons.map Reason.code :=
  ⟨commingling_of_funds_rule_exact.1 financePassportOk
     financeContextCommingling rfl rfl rfl rfl rfl rfl rfl rfl rfl rfl
     rfl,
   commingling_of_funds_rule_exact.2 financePassportOk financeContextOk
     (by decide)⟩

/-- C8: required-field presence is JavaScript truthiness, not key
presence: in each evaluator, a required field carrying a falsy value
(zero, the empty string, false) counts as missing, so once the passport
level checks pass the decision is a deny whose single reason code is
oap.invalid_context rather than any later rule code. -/
theorem falsy_required_field_treated_as_missing :
    (∀ (p : FinancePassport) (c : FinanceContext) (f : String),
      f ∈ financeRequiredFields → (c.get f).truthy = false →
      frStatus.fires p c = false → frCap.fires p c = false →
      frAssurance.fires p c = false →
      (evaluateFinanceTransactionExecuteV1 p c).allow = false ∧
      (evaluateFinanceTransactionExecuteV1 p c).reasons.map Reason.code =
        ["oap.invalid_context"]) ∧
    (∀ (p : GovPassport) (c : GovContext) (f : String),
      f ∈ govRequiredFields → (c.get f).truthy = false →
      grStatus.fires p c = false → grCap.fires p c = false →
      grAssurance.fires p c = false →
      (evaluateGovernanceDataAccessV1 p c).allow = false ∧
      (evaluateGovernanceDataAccessV1 p c).reasons.map Reason.code =
        ["oap.invalid_context"]) ∧
    (∀ (p : LegalPassport) (c : LegalContext) (f : String),
      f ∈ legalRequiredFields → (c.get f).truthy = false →
      lrStatus.fires p c = false → lrCap.fires p c = false →
      lrAssurance.fires p c = false →
      (evaluateLegalContractReviewV1 p c).allow = false ∧
      (evaluateLegalContractReviewV1 p c).reasons.map Reason.code =
        ["oap.invalid_context"]) := by
  refine ⟨?_, ?_, ?_⟩ <;>
  · intro p c f hf hfalsy h1 h2 h3
    first
    | (have hne : financeMissingFields c ≠ [] :=
        List.ne_nil_of_mem
          (List.mem_filter.mpr ⟨hf, by simp [hfalsy]⟩)
       unfold evaluateFinanceTransactionExecuteV1
       simp [h1, h2, h3, List.length_pos.mpr hne, financeInvalidContext])
    | (have hne : govMissingFields c ≠ [] :=
        List.ne_nil_of_mem
          (List.mem_filter.mpr ⟨hf, by simp [hfalsy]⟩)
       unfold evaluateGovernanceDataAccessV1
       simp [h1, h2, h3, List.length_pos.mpr hne, govInvalidContext])
    | (have hne : legalMissingFields c ≠ [] :=
        List.ne_nil_of_mem
          (List.mem_filter.mpr ⟨hf, by simp [hfalsy]⟩)
       unfold evaluateLegalContractReviewV1
       simp [h1, h2, h3, List.length_pos.mpr hne, legalInvalidContext])

/-- C8 witness: amount zero in a finance context, an empty accessing
entity id in a data access context, and a false client id in a legal
context are each denied as invalid context. -/
theorem falsy_required_field_treated_as_missing_witness :
    (evaluateFinanceTransactionExecuteV1 financePassportOk
      { financeContextOk with amount := .vnum 0 }).allow = false ∧
    (evaluateFinanceTransactionExecuteV1 financePassportOk
      { financeContextOk with amount := .vnum 0 }).reasons.map
        Reason.code = ["oap.invalid_context"] ∧
    (evaluateGovernanceDataAccessV1 govPassportPublicOnly
      { govContextSecret with accessing_entity_id := .vstr "" }).allow =
      false ∧
    (evaluateGovernanceDataAccessV1 govPassportPublicOnly
      { govContextSecret with accessing_entity_id := .vstr "" }).reasons.map
        Reason.code = ["oap.invalid_context"] ∧
    (evaluateLegalContractReviewV1 legalPassportOk
      { legalContextOk with client_id := .vbool false }).allow = false ∧
    (evaluateLegalContractReviewV1 legalPassportOk
      { legalContextOk with client_id := .vbool false }).reasons.map
        Reason.code = ["oap.invalid_context"] := by
  have hfin := falsy_required_field_treated_as_missing.1
    financePassportOk { financeContextOk with amount := .vnum 0 }
    "amount" (by decide) rfl rfl rfl rfl
  have hgov := falsy_required_field_treated_as_missing.2.1
    govPassportPublicOnly
    { govContextSecret with accessing_entity_id := .vstr "" }
    "accessing_entity_id" (by decide) rfl rfl rfl rfl
  have hleg := falsy_required_field_treated_as_missing.2.2
    legalPassportOk { legalContextOk with client_id := .vbool false }
    "client_id" (by decide) rfl rfl rfl rfl
  exact ⟨hfin.1, hfin.2, hgov.1, hgov.2, hleg.1, hleg.2⟩

/-- C9: an allowlist limit that is absent or empty imposes no
restriction.  The four membership rules guard on a non-empty resolved
list, so with the list resolved to empty (whether stored as an empty
array or not stored at all) the corresponding rule never fires for any
context value, and the corresponding deny code never appears in any
decision of the finance and legal evaluators. -/
theorem empty_allowlists_unrestricted :
    (∀ (p : FinancePassport) (c : FinanceContext),
      financeAllowedTxTypes p = [] → frTxType.fires p c = false) ∧
    (∀ (p : FinancePassport) (c : FinanceContext),
      financeAllowedAssetClasses p = [] →
      frAssetClass.fires p c = false) ∧
    (∀ (p : LegalPassport) (c : LegalContext),
      legalAllowedDocTypes p = [] → lrDocType.fires p c = false) ∧
    (∀ (p : GovPassport) (c : GovContext),
      govAllowedJurisdictions p = [] → grJurisdiction.fires p c = false) ∧
    (∀ (p : FinancePassport) (c : FinanceContext),
      financeAllowedTxTypes p = [] →
      "oap.action_forbidden" ∉
        (evaluateFinanceTransactionExecuteV1 p c).reasons.map
          Reason.code) ∧
    (∀ (p : FinancePassport) (c : FinanceContext),
      financeAllowedAssetClasses p = [] →
      "oap.asset_class_forbidden" ∉
        (evaluateFinanceTransactionExecuteV1 p c).reasons.map
          Reason.code) ∧
    (∀ (p : LegalPassport) (c : LegalContext),
      legalAllowedDocTypes p = [] →
      "oap.document_type_forbidden" ∉
        (evaluateLegalContractReviewV1 p c).reasons.map Reason.code) := by
  refine ⟨?_, ?_, ?_, ?_, ?_, ?_, ?_⟩
  · intro p c h
    simp [frTxType, h]
  · intro p c h
    simp [frAssetClass, h]
  · intro p c h
    simp [lrDocType, h]
  · intro p c h
    simp [grJurisdiction, h]
  · intro p c h
    have hf : frTxType.fires p c = false := by simp [frTxType, h]
    intro hmem
    rcases financeEval_code_mem p c _ hmem with ⟨r, hr, hfire, hcode⟩ |
      hcode | hcode
    · unfold financeRules at hr
      simp only [List.mem_cons, List.not_mem_nil, or_false] at hr
      rcases hr with rfl | rfl | rfl | rfl | rfl | rfl | rfl | rfl |
        rfl | rfl <;>
        first
        | (exact absurd hcode (by decide))
        | (rw [hf] at hfire; exact Bool.noConfusion hfire)
    · exact absurd hcode (by decide)
    · exact absurd hcode (by decide)
  · intro p c h
    have hf : frAssetClass.fires p c = false := by simp [frAssetClass, h]
    intro hmem
    rcases financeEval_code_mem p c _ hmem with ⟨r, hr, hfire, hcode⟩ |
      hcode | hcode
    · unfold financeRules at hr
      simp only [List.mem_cons, List.not_mem_nil, or_false] at hr
      rcases hr with rfl | rfl | rfl | rfl | rfl | rfl | rfl | rfl |
        rfl | rfl <;>
        first
        | (exact absurd hcode (by decide))
        | (rw [hf] at hfire; exact Bool.noConfusion hfire)
    · exact absurd hcode (by decide)
    · exact absurd hcode (by decide)
  · intro p c h
    have hf : lrDocType.fires p c = false := by simp [lrDocType, h]
    intro hmem
    rcases legalEval_code_mem p c _ hmem with ⟨r, hr, hfire, hcode⟩ |
      hcode
    · unfold legalRules at hr
      simp only [List.mem_cons, List.not_mem_nil, or_false] at hr
      rcases hr with rfl | rfl | rfl | rfl | rfl | rfl | rfl | rfl |
        rfl | rfl | rfl <;>
        first
        | (exact absurd hcode (by decide))
        | (rw [hf] at hfire; exact Bool.noConfusion hfire)
    · exact absurd hcode (by decide)

/-- C9 witness: the passports without configured allowlists pass the
four membership rules and never produce the allowlist deny codes on the
concrete contexts. -/
theorem empty_allowlists_unrestricted_witness :
    frTxType.fires financePassportOk financeContextOk = false ∧
    frAssetClass.fires financePassportOk financeContextOk = false ∧
    lrDocType.fires legalPassportOk legalContextOk = false ∧
    grJurisdiction.fires govPassportPublicOnly govContextSecret = false ∧
    "oap.action_forbidden" ∉
      (evaluateFinanceTransactionExecuteV1 financePassportOk
        financeContextOk).reasons.map Reason.code ∧
    "oap.asset_class_forbidden" ∉
      (evaluateFinanceTransactionExecuteV1 financePassportOk
        financeContextOk).reasons.map Reason.code ∧
    "oap.document_type_forbidden" ∉
      (evaluateLegalContractReviewV1 legalPassportOk
        legalContextOk).reasons.map Reason.code :=
  ⟨empty_allowlists_unrestricted.1 _ _ rfl,
   empty_allowlists_unrestricted.2.1 _ _ rfl,
   empty_allowlists_unrestricted.2.2.1 _ _ rfl,
   empty_allowlists_unrestricted.2.2.2.1 _ _ rfl,
   empty_allowlists_unrestricted.2.2.2.2.1 _ _ rfl,
   empty_allowlists_unrestricted.2.2.2.2.2.1 _ _ rfl,
   empty_allowlists_unrestricted.2.2.2.2.2.2 _ _ rfl⟩

/-- C10: a limit rule guarded by an optional context field is skipped
whenever that field is absent or falsy: without a truthy counterparty
id the counterparty exposure code never appears in a finance decision,
without a truthy row count the row limit code never appears in a data
access decision, and without a truthy document size the size code never
appears in a legal decision, whatever the amounts and limits are. -/
theorem optional_field_rules_skipped :
    (∀ (p : FinancePassport) (c : FinanceContext),
      c.counterparty_id.truthy = false →
      "oap.counterparty_limit_exceeded" ∉
        (evaluateFinanceTransactionExecuteV1 p c).reasons.map
          Reason.code) ∧
    (∀ (p : GovPassport) (c : GovContext),
      c.row_count.truthy = false →
      "oap.row_limit_exceeded" ∉
        (evaluateGovernanceDataAccessV1 p c).reasons.map Reason.code) ∧
    (∀ (p : LegalPassport) (c : LegalContext),
      c.document_size_mb.truthy = false →
      "oap.document_size_exceeded" ∉
        (evaluateLegalContractReviewV1 p c).reasons.map Reason.code) := by
  refine ⟨?_, ?_, ?_⟩
  · intro p c h
    have hf : frCounterparty.fires p c = false := by
      simp [frCounterparty, h]
    intro hmem
    rcases financeEval_code_mem p c _ hmem with ⟨r, hr, hfire, hcode⟩ |
      hcode | hcode
    · unfold financeRules at hr
      simp only [List.mem_cons, List.not_mem_nil, or_false] at hr
      rcases hr with rfl | rfl | rfl | rfl | rfl | rfl | rfl | rfl |
        rfl | rfl <;>
        first
        | (exact absurd hcode (by decide))
        | (rw [hf] at hfire; exact Bool.noConfusion hfire)
    · exact absurd hcode (by decide)
    · exact absurd hcode (by decide)
  · intro p c h
    have hf : grRowLimit.fires p c = false := by
      simp [grRowLimit, h]
    intro hmem
    rcases govEval_code_mem p c _ hmem with ⟨r, hr, hfire, hcode⟩ |
      hcode | hcode
    · unfold govRules at hr
      simp only [List.mem_cons, List.not_mem_nil, or_false] at hr
      rcases hr with rfl | rfl | rfl | rfl | rfl | rfl | rfl | rfl |
        rfl | rfl <;>
        first
        | (exact absurd hcode (by decide))
        | (rw [hf] at hfire; exact Bool.noConfusion hfire)
    · exact absurd hcode (by decide)
    · exact absurd hcode (by decide)
  · intro p c h
    have hf : lrDocSize.fires p c = false := by
      simp [lrDocSize, h]
    intro hmem
    rcases legalEval_code_mem p c _ hmem with ⟨r, hr, hfire, hcode⟩ |
      hcode
    · unfold legalRules at hr
      simp only [List.mem_cons, List.not_mem_nil, or_false] at hr
      rcases hr with rfl | rfl | rfl | rfl | rfl | rfl | rfl | rfl |
        rfl | rfl | rfl <;>
        first
        | (exact absurd hcode (by decide))
        | (rw [hf] at hfire; exact Bool.noConfusion hfire)
    · exact absurd hcode (by decide)

/-- A finance passport with a 10 minor unit counterparty exposure limit
and no other limits. -/
def financePassportCp : FinancePassport :=
  { status := "active", assurance_level := "L3",
    capabilities := some [⟨"finance.transaction"⟩],
    limits := some { max_exposure_per_counterparty_usd := some 10 } }

/-- A data access passport with a 10 row export limit. -/
def govPassportRows : GovPassport :=
  { status := "active", assurance_level := "L3",
    capabilities := some [⟨"data.access"⟩],
    limits := some { max_rows_per_export := some 10 } }

/-- A legal passport with a 10 MB document size limit. -/
def legalPassportSize : LegalPassport :=
  { status := "active", assurance_level := "L3",
    capabilities := some [⟨"legal.contract.review"⟩],
    limits := some { max_document_size_mb := some 10 } }

/-- C10 witness: contexts omitting the optional fields bypass the
corresponding limits even though the amount of 100 exceeds the
counterparty limit of 10. -/
theorem optional_field_rules_skipped_witness :
    "oap.counterparty_limit_exceeded" ∉
      (evaluateFinanceTransactionExecuteV1 financePassportCp
        financeContextOk).reasons.map Reason.code ∧
    "oap.row_limit_exceeded" ∉
      (evaluateGovernanceDataAccessV1 govPassportRows
        govContextSecret).reasons.map Reason.code ∧
    "oap.document_size_exceeded" ∉
      (evaluateLegalContractReviewV1 legalPassportSize
        legalContextOk).reasons.map Reason.code :=
  ⟨optional_field_rules_skipped.1 _ _ rfl,
   optional_field_rules_skipped.2.1 _ _ rfl,
   optional_field_rules_skipped.2.2 _ _ rfl⟩
